import Mathlib

/-!
Verification development for the Kylix lending pallet
(`pallets/template/src/lib.rs`).

Two layers are formalised:

* `PalletImpl` — a shallow embedding of the pallet source as written.
  Every dispatchable in the source checks the origin with `ensure_signed`,
  emits one or two events, and returns `Ok(())`; none of them reads or
  writes the `ReservePools` storage map, and `do_create_lending_pool` is
  `Ok(())`.

* `Engine` — the lending-pool accounting and interest-rate engine that the
  specification describes (rate model, accrual, pool ledger, position
  ledger).  This logic is absent from the source tree (the handlers are a
  scaffold), so each definition here is modelled from the specification
  text, as indicated by its doc comment.
-/

namespace KylixLending

namespace PalletImpl

/-- Origin of a dispatchable call: a signed account, root, or none. -/
inductive Origin where
  | signed (who : Nat)
  | root
  | none
deriving DecidableEq

/-- Events emitted by the pallet (`Event<T>` in the source). -/
inductive Event where
  | DepositSupplied (who balance : Nat)
  | DepositWithdrawn (who balance : Nat)
  | DepositBorrowed (who balance : Nat)
  | DepositRepaid (who balance : Nat)
  | RewardsClaimed (who balance : Nat)
  | LendingPoolAdded (who : Nat)
  | LendingPoolRemoved (who : Nat)
  | LendingPoolActivated (who asset : Nat)
  | LendingPoolDeactivated (who asset : Nat)
  | LendingPoolRateModelUpdated (who asset : Nat)
  | LendingPoolKinkUpdated (who asset : Nat)
deriving DecidableEq

/-- The pallet error enum (`Error<T>` in the source). -/
inductive PalletError where
  | LendingPoolDoesNotExist
  | LendingPoolAlreadyExists
  | LendingPoolAlreadyActivated
  | LendingPoolAlreadyDeactivated
deriving DecidableEq

/-- Dispatch-level errors: a bad origin, or a pallet module error. -/
inductive DispatchError where
  | BadOrigin
  | Module (e : PalletError)
deriving DecidableEq

/-- The value stored in `ReservePools` (`LendingPool<T>` in the source):
a pool id and its not-yet-borrowed free balance. -/
structure LendingPool where
  id : Nat
  balance_free : Nat
deriving DecidableEq

/-- `LendingPool::from` in the source. -/
def LendingPool.from_ (id balance_free : Nat) : LendingPool :=
  { id := id, balance_free := balance_free }

/-- On-chain state touched by the pallet: the `ReservePools` storage map
(`ValueQuery`, so every key has a value, defaulting to the default
`LendingPool`) and the list of emitted events. -/
structure PalletState where
  reservePools : Nat → LendingPool
  events : List Event

/-- `ensure_signed`: succeeds with the account id only for a signed origin. -/
def ensure_signed : Origin → Except DispatchError Nat
  | .signed who => .ok who
  | _ => .error .BadOrigin

/-- `Self::deposit_event`: appends an event to the state. -/
def deposit_event (ev : Event) (st : PalletState) : PalletState :=
  { st with events := st.events ++ [ev] }

/-- `do_create_lending_pool` in the source: its body is just `Ok(())`. -/
def do_create_lending_pool (_balance : Nat) (st : PalletState) :
    Except DispatchError PalletState :=
  .ok st

/-- Dispatchable `create_lending_pool` (call index 0). -/
def create_lending_pool (origin : Origin) (balance : Nat) (st : PalletState) :
    Except DispatchError PalletState :=
  match ensure_signed origin with
  | .error e => .error e
  | .ok who =>
    match do_create_lending_pool balance st with
    | .error e => .error e
    | .ok st1 =>
      .ok (deposit_event (.DepositSupplied who balance)
        (deposit_event (.LendingPoolAdded who) st1))

/-- Dispatchable `activate_lending_pool` (call index 1). -/
def activate_lending_pool (origin : Origin) (asset : Nat) (st : PalletState) :
    Except DispatchError PalletState :=
  match ensure_signed origin with
  | .error e => .error e
  | .ok who => .ok (deposit_event (.LendingPoolActivated who asset) st)

/-- Dispatchable `supply` (call index 2). -/
def supply (origin : Origin) (balance : Nat) (st : PalletState) :
    Except DispatchError PalletState :=
  match ensure_signed origin with
  | .error e => .error e
  | .ok who => .ok (deposit_event (.DepositSupplied who balance) st)

/-- Dispatchable `withdraw` (call index 3). -/
def withdraw (origin : Origin) (balance : Nat) (st : PalletState) :
    Except DispatchError PalletState :=
  match ensure_signed origin with
  | .error e => .error e
  | .ok who => .ok (deposit_event (.DepositWithdrawn who balance) st)

/-- Dispatchable `borrow` (call index 4). -/
def borrow (origin : Origin) (balance : Nat) (st : PalletState) :
    Except DispatchError PalletState :=
  match ensure_signed origin with
  | .error e => .error e
  | .ok who => .ok (deposit_event (.DepositBorrowed who balance) st)

/-- Dispatchable `repay` (call index 5). -/
def repay (origin : Origin) (balance : Nat) (st : PalletState) :
    Except DispatchError PalletState :=
  match ensure_signed origin with
  | .error e => .error e
  | .ok who => .ok (deposit_event (.DepositRepaid who balance) st)

/-- Dispatchable `claim_rewards` (call index 6). -/
def claim_rewards (origin : Origin) (balance : Nat) (st : PalletState) :
    Except DispatchError PalletState :=
  match ensure_signed origin with
  | .error e => .error e
  | .ok who => .ok (deposit_event (.RewardsClaimed who balance) st)

/-- An empty initial pallet state: all storage at its `ValueQuery` default. -/
def initialState : PalletState :=
  { reservePools := fun _ => { id := 0, balance_free := 0 }, events := [] }

end PalletImpl

namespace Engine

/-- Modelled from the spec: pool status, `status ∈ {Active, Inactive}`
(§3 Data Model); absent from the source scaffold. -/
inductive PoolStatus where
  | Active
  | Inactive
deriving DecidableEq

/-- Modelled from the spec: `rate_model_params
{base_rate, multiplier, jump_multiplier, kink_utilization}` (§3);
absent from the source scaffold.  Per-period rates as exact rationals. -/
structure RateModelParams where
  base_rate : ℚ
  multiplier : ℚ
  jump_multiplier : ℚ
  kink_utilization : ℚ
deriving DecidableEq

/-- Modelled from the spec: the RateModel parameter check (§4.1: fails with
`InvalidParams` if `kink_utilization ∉ [0,1]` or any multiplier is
negative; §8 additionally requires rate-model output to be non-negative,
which forces `base_rate ≥ 0`, so the base rate is validated with the
multipliers). -/
def RateModelParams.Valid (p : RateModelParams) : Prop :=
  0 ≤ p.kink_utilization ∧ p.kink_utilization ≤ 1 ∧
    0 ≤ p.multiplier ∧ 0 ≤ p.jump_multiplier ∧ 0 ≤ p.base_rate

instance (p : RateModelParams) : Decidable p.Valid := by
  unfold RateModelParams.Valid
  infer_instance

/-- Modelled from the spec: the Pool record (§3 Data Model): principals,
reserves, the two monotone indices (starting at 1), the last accrual
timestamp, rate-model parameters, the reserve factor and the status.
The source's `LendingPool` struct holds only an id and a free balance;
the remaining fields exist only in the specification. -/
structure Pool where
  asset_id : Nat
  total_supplied : Nat
  total_borrowed : Nat
  reserves : ℚ
  supply_index : ℚ
  borrow_index : ℚ
  last_accrual_timestamp : Nat
  rate_model_params : RateModelParams
  reserve_factor : ℚ
  status : PoolStatus
deriving DecidableEq

/-- Modelled from the spec: a Position (§3): supply shares, borrow
principal and the borrow-index snapshot taken at the last update. -/
structure Position where
  supply_shares : ℚ
  borrow_principal : ℚ
  borrow_index_snapshot : ℚ
deriving DecidableEq

/-- Modelled from the spec: engine failure taxonomy (§4, §6, §7). -/
inductive EngineError where
  | PoolAlreadyExists
  | PoolDoesNotExist
  | PoolNotEmpty
  | PoolAlreadyActive
  | PoolAlreadyInactive
  | PoolInactive
  | InvalidParams
  | InsufficientBalance
  | InsufficientPoolLiquidity
  | ArithmeticOverflow
deriving DecidableEq

/-- Modelled from the spec: the PoolLedger and PositionLedger stores (§3
Ownership): pools keyed by asset id, positions keyed by (account, asset). -/
structure LedgerState where
  pools : Nat → Option Pool
  positions : Nat → Nat → Option Position

/-- Modelled from the spec: RateModel borrow rate (§4.1).  Below the kink
`base_rate + multiplier * utilization`; at or above the kink
`base_rate + multiplier * kink_utilization +
jump_multiplier * (utilization - kink_utilization)`. -/
def borrow_rate (p : RateModelParams) (u : ℚ) : ℚ :=
  if u < p.kink_utilization then p.base_rate + p.multiplier * u
  else p.base_rate + p.multiplier * p.kink_utilization +
    p.jump_multiplier * (u - p.kink_utilization)

/-- Modelled from the spec: RateModel supply rate (§4.1):
`supply_rate = borrow_rate * utilization * (1 - reserve_factor)`. -/
def supply_rate (p : RateModelParams) (reserve_factor u : ℚ) : ℚ :=
  borrow_rate p u * u * (1 - reserve_factor)

/-- Modelled from the spec: utilization (§3):
`total_borrowed / total_supplied`, and 0 when `total_supplied = 0`. -/
def utilization (p : Pool) : ℚ :=
  if p.total_supplied = 0 then 0
  else (p.total_borrowed : ℚ) / (p.total_supplied : ℚ)

/-- Modelled from the spec: the largest index value the fixed-point
representation can hold (§4.2 mentions overflow of the representation but
fixes no width; a 128-bit-style bound is used). -/
def maxIndex : ℚ := 2 ^ 128

/-- Modelled from the spec: elapsed periods since the pool's last accrual
(§4.2). -/
def elapsedPeriods (p : Pool) (now : Nat) : Nat :=
  now - p.last_accrual_timestamp

/-- Modelled from the spec: the borrow index after compounding over the
elapsed periods, `borrow_index * (1 + borrow_rate)^elapsed` (§4.2). -/
def accruedBorrowIndex (p : Pool) (now : Nat) : ℚ :=
  p.borrow_index *
    (1 + borrow_rate p.rate_model_params (utilization p)) ^ elapsedPeriods p now

/-- Modelled from the spec: the supply index after compounding over the
elapsed periods, `supply_index * (1 + supply_rate)^elapsed` (§4.2). -/
def accruedSupplyIndex (p : Pool) (now : Nat) : ℚ :=
  p.supply_index *
    (1 + supply_rate p.rate_model_params p.reserve_factor (utilization p)) ^
      elapsedPeriods p now

/-- Modelled from the spec: reserves after diverting the `reserve_factor`
fraction of the accrued borrow interest (§4.2). -/
def accruedReserves (p : Pool) (now : Nat) : ℚ :=
  p.reserves + p.reserve_factor * (p.total_borrowed : ℚ) *
    ((1 + borrow_rate p.rate_model_params (utilization p)) ^
      elapsedPeriods p now - 1)

/-- Modelled from the spec: AccrualEngine `accrue(pool, now)` (§4.2).
Zero elapsed periods is a no-op; otherwise both indices are compounded per
period, a `reserve_factor` fraction of accrued borrow interest is diverted
to `reserves`, and the computation fails with `ArithmeticOverflow` when an
index would leave the fixed-point range. -/
def accrue (p : Pool) (now : Nat) : Except EngineError Pool :=
  if elapsedPeriods p now = 0 then .ok p
  else if maxIndex < accruedBorrowIndex p now ∨
      maxIndex < accruedSupplyIndex p now then
    .error .ArithmeticOverflow
  else
    .ok { p with
      borrow_index := accruedBorrowIndex p now
      supply_index := accruedSupplyIndex p now
      reserves := accruedReserves p now
      last_accrual_timestamp := now }

/-- Modelled from the spec: available (non-reserved, non-borrowed)
liquidity of a pool (§4.4 borrow). -/
def availableLiquidity (p : Pool) : ℚ :=
  (p.total_supplied : ℚ) - (p.total_borrowed : ℚ) - p.reserves

/-- Modelled from the spec: the freshly created pool of `add_pool` (§4.3):
zero balances and reserves, both indices at 1, status Active. -/
def newPool (aid : Nat) (prms : RateModelParams) (rf : ℚ) : Pool :=
  { asset_id := aid
    total_supplied := 0
    total_borrowed := 0
    reserves := 0
    supply_index := 1
    borrow_index := 1
    last_accrual_timestamp := 0
    rate_model_params := prms
    reserve_factor := rf
    status := .Active }

/-- Helper: overwrite the pool stored under an asset id. -/
def setPool (st : LedgerState) (aid : Nat) (p : Pool) : LedgerState :=
  { st with pools := fun b => if b = aid then some p else st.pools b }

/-- Helper: the position of an account in a pool; a missing record reads
as the empty position (§3: positions are created on first interaction). -/
def getPosition (st : LedgerState) (acc aid : Nat) : Position :=
  (st.positions acc aid).getD
    { supply_shares := 0, borrow_principal := 0, borrow_index_snapshot := 1 }

/-- Modelled from the spec: position store update honouring the lifecycle
rule of §3 (a position is destroyed when both its supply and borrow
balances return to zero). -/
def setPosition (st : LedgerState) (acc aid : Nat) (pos : Position) :
    LedgerState :=
  { st with positions := fun x y =>
      if x = acc ∧ y = aid then
        if pos.supply_shares = 0 ∧ pos.borrow_principal = 0 then none
        else some pos
      else st.positions x y }

/-- Modelled from the spec: PoolLedger `add_pool(asset_id, initial_params)`
(§4.3): fails with `PoolAlreadyExists` if present; otherwise creates a
Pool with zero balances, status Active. -/
def add_pool (aid : Nat) (prms : RateModelParams) (rf : ℚ)
    (st : LedgerState) : Except EngineError LedgerState :=
  if (st.pools aid).isSome then .error .PoolAlreadyExists
  else .ok (setPool st aid (newPool aid prms rf))

/-- Modelled from the spec: the `add_lending_pool` handler (§6): validates
the rate-model parameters (and the reserve factor as a fraction in [0,1])
before delegating to `add_pool`, failing with `InvalidParams` otherwise. -/
def add_lending_pool (aid : Nat) (prms : RateModelParams) (rf : ℚ)
    (st : LedgerState) : Except EngineError LedgerState :=
  if prms.Valid ∧ 0 ≤ rf ∧ rf ≤ 1 then add_pool aid prms rf st
  else .error .InvalidParams

/-- Modelled from the spec: PoolLedger `remove_pool(asset_id)` (§4.3):
fails with `PoolDoesNotExist`; fails with `PoolNotEmpty` unless both
principals are zero. -/
def remove_pool (aid : Nat) (st : LedgerState) :
    Except EngineError LedgerState :=
  match st.pools aid with
  | none => .error .PoolDoesNotExist
  | some p =>
    if p.total_supplied = 0 ∧ p.total_borrowed = 0 then
      .ok { st with pools := fun b => if b = aid then none else st.pools b }
    else .error .PoolNotEmpty

/-- Modelled from the spec: PoolLedger `activate(asset_id)` (§4.3): fails
with `PoolAlreadyActive` on a no-op transition. -/
def activate (aid : Nat) (st : LedgerState) :
    Except EngineError LedgerState :=
  match st.pools aid with
  | none => .error .PoolDoesNotExist
  | some p =>
    if p.status = .Active then .error .PoolAlreadyActive
    else .ok (setPool st aid { p with status := .Active })

/-- Modelled from the spec: PoolLedger `deactivate(asset_id)` (§4.3):
fails with `PoolAlreadyInactive` on a no-op transition. -/
def deactivate (aid : Nat) (st : LedgerState) :
    Except EngineError LedgerState :=
  match st.pools aid with
  | none => .error .PoolDoesNotExist
  | some p =>
    if p.status = .Inactive then .error .PoolAlreadyInactive
    else .ok (setPool st aid { p with status := .Inactive })

/-- Modelled from the spec: PositionLedger `supply` (§4.4): requires the
pool Active; accrues; converts the amount to shares at the current supply
index; credits the shares and increases `total_supplied`. -/
def supplyToPool (acc aid amount now : Nat) (st : LedgerState) :
    Except EngineError LedgerState :=
  match st.pools aid with
  | none => .error .PoolDoesNotExist
  | some p =>
    if p.status ≠ .Active then .error .PoolInactive
    else
      match accrue p now with
      | .error e => .error e
      | .ok p1 =>
        let pos := getPosition st acc aid
        let shares := (amount : ℚ) / p1.supply_index
        .ok (setPosition
          (setPool st aid { p1 with total_supplied := p1.total_supplied + amount })
          acc aid { pos with supply_shares := pos.supply_shares + shares })

/-- Modelled from the spec: PositionLedger `withdraw` (§4.4): accrues;
fails with `InsufficientBalance` beyond the position's real balance; fails
with `InsufficientPoolLiquidity` when withdrawing would breach
`total_supplied ≥ total_borrowed`; burns the shares and decreases
`total_supplied`.  Permitted on inactive pools (§4.3). -/
def withdrawFromPool (acc aid amount now : Nat) (st : LedgerState) :
    Except EngineError LedgerState :=
  match st.pools aid with
  | none => .error .PoolDoesNotExist
  | some p =>
    match accrue p now with
    | .error e => .error e
    | .ok p1 =>
      let pos := getPosition st acc aid
      if (amount : ℚ) > pos.supply_shares * p1.supply_index then
        .error .InsufficientBalance
      else if ¬ (amount + p1.total_borrowed ≤ p1.total_supplied) then
        .error .InsufficientPoolLiquidity
      else
        .ok (setPosition
          (setPool st aid { p1 with total_supplied := p1.total_supplied - amount })
          acc aid
          { pos with supply_shares :=
              pos.supply_shares - (amount : ℚ) / p1.supply_index })

/-- Modelled from the spec: PositionLedger `borrow` (§4.4): requires the
pool Active; accrues; fails with `InsufficientPoolLiquidity` if the amount
exceeds available (non-reserved, non-borrowed) liquidity; settles the
borrow principal at the current borrow index and increases it and
`total_borrowed`. -/
def borrowFromPool (acc aid amount now : Nat) (st : LedgerState) :
    Except EngineError LedgerState :=
  match st.pools aid with
  | none => .error .PoolDoesNotExist
  | some p =>
    if p.status ≠ .Active then .error .PoolInactive
    else
      match accrue p now with
      | .error e => .error e
      | .ok p1 =>
        if availableLiquidity p1 < (amount : ℚ) then
          .error .InsufficientPoolLiquidity
        else
          let pos := getPosition st acc aid
          let settled :=
            pos.borrow_principal * p1.borrow_index / pos.borrow_index_snapshot
          .ok (setPosition
            (setPool st aid { p1 with total_borrowed := p1.total_borrowed + amount })
            acc aid
            { supply_shares := pos.supply_shares
              borrow_principal := settled + (amount : ℚ)
              borrow_index_snapshot := p1.borrow_index })

/-- Modelled from the spec: PositionLedger `repay` (§4.4): accrues; caps
the effective repayment at the outstanding real borrow balance (of the two
policies the spec allows, silent truncation is chosen and documented
here); reduces the borrow principal and `total_borrowed`. -/
def repayToPool (acc aid amount now : Nat) (st : LedgerState) :
    Except EngineError LedgerState :=
  match st.pools aid with
  | none => .error .PoolDoesNotExist
  | some p =>
    match accrue p now with
    | .error e => .error e
    | .ok p1 =>
      let pos := getPosition st acc aid
      let settled :=
        pos.borrow_principal * p1.borrow_index / pos.borrow_index_snapshot
      let eff : ℚ := min (amount : ℚ) settled
      .ok (setPosition
        (setPool st aid
          { p1 with total_borrowed := p1.total_borrowed - min amount p1.total_borrowed })
        acc aid
        { supply_shares := pos.supply_shares
          borrow_principal := settled - eff
          borrow_index_snapshot := p1.borrow_index })

/-- Modelled from the spec: a bare accrual of one pool's indices (§4.2),
exposed as an operation so the settle-before-mutate discipline is part of
the transition system. -/
def accruePool (aid now : Nat) (st : LedgerState) :
    Except EngineError LedgerState :=
  match st.pools aid with
  | none => .error .PoolDoesNotExist
  | some p =>
    match accrue p now with
    | .error e => .error e
    | .ok p1 => .ok (setPool st aid p1)

/-- Modelled from the spec: the operations of §4.3/§4.4 as one transition
alphabet (supply, withdraw, borrow, repay, accrual, lifecycle). -/
inductive Op where
  | addPool (aid : Nat) (prms : RateModelParams) (rf : ℚ)
  | removePool (aid : Nat)
  | activatePool (aid : Nat)
  | deactivatePool (aid : Nat)
  | supplyOp (acc aid amount now : Nat)
  | withdrawOp (acc aid amount now : Nat)
  | borrowOp (acc aid amount now : Nat)
  | repayOp (acc aid amount now : Nat)
  | accrueOp (aid now : Nat)

/-- Modelled from the spec: one engine transition. -/
def applyOp (o : Op) (st : LedgerState) : Except EngineError LedgerState :=
  match o with
  | .addPool aid prms rf => add_lending_pool aid prms rf st
  | .removePool aid => remove_pool aid st
  | .activatePool aid => activate aid st
  | .deactivatePool aid => deactivate aid st
  | .supplyOp acc aid amount now => supplyToPool acc aid amount now st
  | .withdrawOp acc aid amount now => withdrawFromPool acc aid amount now st
  | .borrowOp acc aid amount now => borrowFromPool acc aid amount now st
  | .repayOp acc aid amount now => repayToPool acc aid amount now st
  | .accrueOp aid now => accruePool aid now st

/-- Modelled from the spec: the state after an operation; a rejected
operation leaves the state unchanged (§7: validation failures are rejected
before any state mutation, partial application is never observable). -/
def afterOp (o : Op) (st : LedgerState) : LedgerState :=
  match applyOp o st with
  | .ok st1 => st1
  | .error _ => st

/-- Well-formedness of one pool record: solvency, non-negative reserves,
valid rate parameters, a reserve factor in [0,1], and indices at least 1
(they start at 1 and never decrease, §3). -/
def PoolWF (p : Pool) : Prop :=
  p.total_borrowed ≤ p.total_supplied ∧
  0 ≤ p.reserves ∧
  p.rate_model_params.Valid ∧
  0 ≤ p.reserve_factor ∧ p.reserve_factor ≤ 1 ∧
  1 ≤ p.supply_index ∧ 1 ≤ p.borrow_index

/-- Well-formedness of the pool store: every stored pool is well formed. -/
def WF (st : LedgerState) : Prop :=
  ∀ a p, st.pools a = some p → PoolWF p

/-- The empty ledger. -/
def emptyLedger : LedgerState :=
  { pools := fun _ => none, positions := fun _ _ => none }

/-- The demonstration rate-model parameters of the spec's scenario (§8):
base 0.02 per period, multiplier 0.1, jump multiplier 1.0, kink 0.8. -/
def demoParams : RateModelParams :=
  { base_rate := 2/100
    multiplier := 1/10
    jump_multiplier := 1
    kink_utilization := 8/10 }

end Engine

end KylixLending

namespace KylixLending

open PalletImpl

/-- C9: every dispatchable of the pallet leaves the `ReservePools` storage
map unchanged: whenever a call returns `ok st'`, every key of
`st'.reservePools` maps to the same value as in `st`. -/
theorem dispatchables_preserve_reservePools
    (o : Origin) (balance asset : Nat) (st st' : PalletState) :
    (create_lending_pool o balance st = .ok st' →
      ∀ k, st'.reservePools k = st.reservePools k) ∧
    (activate_lending_pool o asset st = .ok st' →
      ∀ k, st'.reservePools k = st.reservePools k) ∧
    (supply o balance st = .ok st' →
      ∀ k, st'.reservePools k = st.reservePools k) ∧
    (withdraw o balance st = .ok st' →
      ∀ k, st'.reservePools k = st.reservePools k) ∧
    (borrow o balance st = .ok st' →
      ∀ k, st'.reservePools k = st.reservePools k) ∧
    (repay o balance st = .ok st' →
      ∀ k, st'.reservePools k = st.reservePools k) ∧
    (claim_rewards o balance st = .ok st' →
      ∀ k, st'.reservePools k = st.reservePools k) := by
  cases o with
  | signed who =>
    simp [create_lending_pool, activate_lending_pool, supply, withdraw,
      borrow, repay, claim_rewards, ensure_signed, do_create_lending_pool,
      deposit_event]
    refine ⟨?_, ?_, ?_, ?_, ?_, ?_, ?_⟩ <;> (intro h; subst h; intro k; rfl)
  | root =>
    simp [create_lending_pool, activate_lending_pool, supply, withdraw,
      borrow, repay, claim_rewards, ensure_signed, do_create_lending_pool]
  | none =>
    simp [create_lending_pool, activate_lending_pool, supply, withdraw,
      borrow, repay, claim_rewards, ensure_signed, do_create_lending_pool]

/-- Witness for C9: a concrete `supply` call leaves `ReservePools` intact. -/
theorem dispatchables_preserve_reservePools_witness :
    supply (.signed 1) 5 initialState =
      .ok (deposit_event (.DepositSupplied 1 5) initialState) ∧
    ∀ k, (deposit_event (.DepositSupplied 1 5) initialState).reservePools k =
      initialState.reservePools k := by
  refine ⟨rfl, ?_⟩
  exact (dispatchables_preserve_reservePools (.signed 1) 5 0 initialState
    (deposit_event (.DepositSupplied 1 5) initialState)).2.2.1 rfl

/-- C10: every dispatchable returns `ok` for every signed origin, in every
state and for every argument; and whenever a dispatchable returns an error,
that error is `BadOrigin` — in particular no declared pallet error is ever
returned. -/
theorem dispatchables_total_for_signed
    (who balance asset : Nat) (st : PalletState) :
    (create_lending_pool (.signed who) balance st).isOk = true ∧
    (activate_lending_pool (.signed who) asset st).isOk = true ∧
    (supply (.signed who) balance st).isOk = true ∧
    (withdraw (.signed who) balance st).isOk = true ∧
    (borrow (.signed who) balance st).isOk = true ∧
    (repay (.signed who) balance st).isOk = true ∧
    (claim_rewards (.signed who) balance st).isOk = true ∧
    (∀ o b s e, create_lending_pool o b s = .error e → e = .BadOrigin) ∧
    (∀ o a s e, activate_lending_pool o a s = .error e → e = .BadOrigin) ∧
    (∀ o b s e, supply o b s = .error e → e = .BadOrigin) ∧
    (∀ o b s e, withdraw o b s = .error e → e = .BadOrigin) ∧
    (∀ o b s e, borrow o b s = .error e → e = .BadOrigin) ∧
    (∀ o b s e, repay o b s = .error e → e = .BadOrigin) ∧
    (∀ o b s e, claim_rewards o b s = .error e → e = .BadOrigin) := by
  refine ⟨rfl, rfl, rfl, rfl, rfl, rfl, rfl, ?_, ?_, ?_, ?_, ?_, ?_, ?_⟩ <;>
    intro o b s e h <;> cases o <;>
    simp [create_lending_pool, activate_lending_pool, supply, withdraw,
      borrow, repay, claim_rewards, ensure_signed,
      do_create_lending_pool] at h <;> exact h.symm

/-- Witness for C10: concrete signed calls succeed, and an unsigned
`borrow` fails with exactly `BadOrigin`. -/
theorem dispatchables_total_for_signed_witness :
    (supply (.signed 7) 3 initialState).isOk = true ∧
    borrow .root 3 initialState = .error .BadOrigin ∧
    (DispatchError.BadOrigin : DispatchError) = .BadOrigin := by
  refine ⟨(dispatchables_total_for_signed 7 3 0 initialState).2.2.1, rfl, ?_⟩
  exact (dispatchables_total_for_signed 7 3 0 initialState).2.2.2.2.2.2.2.2.2.2.2.1
    .root 3 initialState .BadOrigin rfl

end KylixLending

namespace KylixLending

open Engine

/-- A well-formed pool's borrow rate is non-negative at non-negative
utilization. -/
lemma borrow_rate_nonneg (p : RateModelParams) (u : ℚ)
    (hv : p.Valid) (hu : 0 ≤ u) : 0 ≤ borrow_rate p u := by
  obtain ⟨hk0, hk1, hm, hj, hb⟩ := hv
  unfold borrow_rate
  split_ifs with h
  · nlinarith
  · push_neg at h
    nlinarith

/-- A well-formed pool's supply rate is non-negative at non-negative
utilization. -/
lemma supply_rate_nonneg (p : RateModelParams) (rf u : ℚ)
    (hv : p.Valid) (hrf : rf ≤ 1) (hu : 0 ≤ u) : 0 ≤ supply_rate p rf u := by
  have hbr := borrow_rate_nonneg p u hv hu
  unfold supply_rate
  have : (0:ℚ) ≤ 1 - rf := by linarith
  positivity

/-- Utilization is non-negative. -/
lemma utilization_nonneg (p : Pool) : 0 ≤ utilization p := by
  unfold utilization
  split_ifs
  · exact le_refl 0
  · positivity

/-- Accrual of a well-formed pool keeps the principals, parameters and
status, and moves reserves and both indices weakly upward. -/
lemma accrue_ok_of_wf (p p' : Pool) (now : Nat)
    (hwf : PoolWF p) (h : accrue p now = .ok p') :
    p'.total_supplied = p.total_supplied ∧
    p'.total_borrowed = p.total_borrowed ∧
    p.supply_index ≤ p'.supply_index ∧
    p.borrow_index ≤ p'.borrow_index ∧
    p'.rate_model_params = p.rate_model_params ∧
    p'.reserve_factor = p.reserve_factor ∧
    p.reserves ≤ p'.reserves ∧
    p'.status = p.status := by
  obtain ⟨hbs, hr, hv, hrf0, hrf1, hsi, hbi⟩ := hwf
  unfold accrue at h
  split_ifs at h with he hov
  · injection h with h
    subst h
    refine ⟨rfl, rfl, le_refl _, le_refl _, rfl, rfl, le_refl _, rfl⟩
  · injection h with h
    subst h
    have hu := utilization_nonneg p
    have hbr := borrow_rate_nonneg p.rate_model_params (utilization p) hv hu
    have hsr := supply_rate_nonneg p.rate_model_params p.reserve_factor
      (utilization p) hv hrf1 hu
    have hpowb : (1:ℚ) ≤ (1 + borrow_rate p.rate_model_params (utilization p)) ^
        elapsedPeriods p now := one_le_pow₀ (by linarith)
    have hpows : (1:ℚ) ≤ (1 + supply_rate p.rate_model_params p.reserve_factor
        (utilization p)) ^ elapsedPeriods p now :=
      one_le_pow₀ (by linarith)
    refine ⟨rfl, rfl, ?_, ?_, rfl, rfl, ?_, rfl⟩
    · show p.supply_index ≤ accruedSupplyIndex p now
      unfold accruedSupplyIndex
      nlinarith
    · show p.borrow_index ≤ accruedBorrowIndex p now
      unfold accruedBorrowIndex
      nlinarith
    · show p.reserves ≤ accruedReserves p now
      unfold accruedReserves
      have hb0 : (0:ℚ) ≤ (p.total_borrowed : ℚ) := by positivity
      have hq : (0:ℚ) ≤ p.reserve_factor * (p.total_borrowed : ℚ) *
          ((1 + borrow_rate p.rate_model_params (utilization p)) ^
            elapsedPeriods p now - 1) :=
        mul_nonneg (mul_nonneg hrf0 hb0) (by linarith)
      linarith

/-- Accruing a pool at its own `last_accrual_timestamp` (zero elapsed
periods) returns it unchanged. -/
lemma accrue_noop (p : Pool) :
    accrue p p.last_accrual_timestamp = .ok p := by
  unfold accrue
  rw [if_pos (by simp [elapsedPeriods])]

/-- Accrual preserves pool well-formedness. -/
lemma accrue_wf (p p' : Pool) (now : Nat)
    (hwf : PoolWF p) (h : accrue p now = .ok p') : PoolWF p' := by
  obtain ⟨h1, h2, h3, h4, h5, h6, h7, h8⟩ := accrue_ok_of_wf p p' now hwf h
  obtain ⟨hbs, hr, hv, hrf0, hrf1, hsi, hbi⟩ := hwf
  refine ⟨by omega, by linarith, by rw [h5]; exact hv, by rw [h6]; exact hrf0,
    by rw [h6]; exact hrf1, by linarith, by linarith⟩

/-- C6: `supply_index` and `borrow_index` never decrease: whenever `accrue`
succeeds on a well-formed pool, each index is at least its value before the
call (hence they are non-decreasing across any sequence of accruals). -/
theorem indices_never_decrease (p p' : Pool) (now : Nat)
    (hwf : PoolWF p) (h : accrue p now = .ok p') :
    p.supply_index ≤ p'.supply_index ∧ p.borrow_index ≤ p'.borrow_index :=
  ⟨(accrue_ok_of_wf p p' now hwf h).2.2.1,
    (accrue_ok_of_wf p p' now hwf h).2.2.2.1⟩

/-- A concrete well-formed demonstration pool: 100 supplied, 50 borrowed,
demo rate parameters, reserve factor 0.1. -/
def demoPool : Pool :=
  { asset_id := 1
    total_supplied := 100
    total_borrowed := 50
    reserves := 0
    supply_index := 1
    borrow_index := 1
    last_accrual_timestamp := 0
    rate_model_params := demoParams
    reserve_factor := 1/10
    status := .Active }

/-- `demoPool` is well formed. -/
lemma demoPool_wf : PoolWF demoPool := by
  unfold PoolWF demoPool demoParams RateModelParams.Valid
  norm_num

/-- The result of accruing `demoPool` one period: utilization 1/2, borrow
rate 7/100, supply rate 63/2000, so the borrow index becomes 107/100, the
supply index 2063/2000, and reserves 7/20. -/
def demoPoolAccrued : Pool :=
  { demoPool with
    supply_index := 2063/2000
    borrow_index := 107/100
    reserves := 7/20
    last_accrual_timestamp := 1 }

/-- Accruing `demoPool` at time 1 yields `demoPoolAccrued`. -/
lemma accrue_demoPool : accrue demoPool 1 = .ok demoPoolAccrued := by
  norm_num [accrue, elapsedPeriods, accruedBorrowIndex, accruedSupplyIndex,
    accruedReserves, utilization, borrow_rate, supply_rate, maxIndex,
    demoPool, demoPoolAccrued, demoParams, Pool.mk.injEq]

/-- Witness for C6: accruing `demoPool` for one period moves the supply
index from 1 to 2063/2000 and the borrow index from 1 to 107/100, both
upward. -/
theorem indices_never_decrease_witness :
    PoolWF demoPool ∧ accrue demoPool 1 = .ok demoPoolAccrued ∧
    (demoPool.supply_index ≤ demoPoolAccrued.supply_index ∧
      demoPool.borrow_index ≤ demoPoolAccrued.borrow_index) :=
  ⟨demoPool_wf, accrue_demoPool,
    indices_never_decrease demoPool demoPoolAccrued 1 demoPool_wf
      accrue_demoPool⟩

/-- C7: zero-elapsed accrual is a no-op: accruing at the pool's own
`last_accrual_timestamp` returns the pool unchanged, and immediately
re-accruing at the same `now` after any successful accrual changes
nothing. -/
theorem accrue_idempotent (p p' : Pool) (now : Nat) :
    accrue p p.last_accrual_timestamp = .ok p ∧
    (accrue p now = .ok p' → accrue p' now = .ok p') := by
  constructor
  · exact accrue_noop p
  · intro h
    unfold accrue at h ⊢
    split_ifs at h with he hov
    · injection h with h
      subst h
      rw [if_pos he]
    · injection h with h
      subst h
      rw [if_pos (by simp [elapsedPeriods])]

/-- Witness for C7: a real one-period accrual of `demoPool` followed by a
second accrual at the same time is a no-op. -/
theorem accrue_idempotent_witness :
    accrue demoPool demoPool.last_accrual_timestamp = .ok demoPool ∧
    accrue demoPool 1 = .ok demoPoolAccrued ∧
    accrue demoPoolAccrued 1 = .ok demoPoolAccrued :=
  ⟨(accrue_idempotent demoPool demoPool 0).1, accrue_demoPool,
    (accrue_idempotent demoPool demoPoolAccrued 1).2 accrue_demoPool⟩

/-- C2 (amended): the rate model is the spec's piecewise-linear jump-rate
curve, and on the demo parameters utilization 0.5 yields borrow rate 0.07
while utilization 0.9 yields borrow rate 0.20. -/
theorem rate_model_piecewise (prms : RateModelParams) (u : ℚ) :
    (u < prms.kink_utilization →
      borrow_rate prms u = prms.base_rate + prms.multiplier * u) ∧
    (prms.kink_utilization ≤ u →
      borrow_rate prms u = prms.base_rate +
        prms.multiplier * prms.kink_utilization +
        prms.jump_multiplier * (u - prms.kink_utilization)) ∧
    borrow_rate demoParams (1/2) = 7/100 ∧
    borrow_rate demoParams (9/10) = 1/5 := by
  refine ⟨?_, ?_, by norm_num [borrow_rate, demoParams],
    by norm_num [borrow_rate, demoParams]⟩
  · intro h
    unfold borrow_rate
    rw [if_pos h]
  · intro h
    unfold borrow_rate
    rw [if_neg (not_lt.mpr h)]

/-- Witness for C2: both branch hypotheses discharged on the demo
parameters at utilizations 0.5 and 0.9. -/
theorem rate_model_piecewise_witness :
    ((1/2 : ℚ) < demoParams.kink_utilization ∧
      borrow_rate demoParams (1/2) =
        demoParams.base_rate + demoParams.multiplier * (1/2)) ∧
    (demoParams.kink_utilization ≤ (9/10 : ℚ) ∧
      borrow_rate demoParams (9/10) = demoParams.base_rate +
        demoParams.multiplier * demoParams.kink_utilization +
        demoParams.jump_multiplier * ((9/10) - demoParams.kink_utilization)) :=
  ⟨⟨by norm_num [demoParams],
      (rate_model_piecewise demoParams (1/2)).1 (by norm_num [demoParams])⟩,
    ⟨by norm_num [demoParams],
      (rate_model_piecewise demoParams (9/10)).2.1 (by norm_num [demoParams])⟩⟩

/-- Counterexample for C2 as stated: with base 0.02, multiplier 0.1,
kink 0.8 and jump multiplier 1.0, utilization 0.9 yields borrow rate
0.20 under the spec's own formula, not the claimed 0.18. -/
theorem rate_model_scenario_refuted :
    borrow_rate demoParams (9/10) = 1/5 ∧ (1/5 : ℚ) ≠ 9/50 := by
  exact ⟨by norm_num [borrow_rate, demoParams], by norm_num⟩

/-- C4: `add_pool` fails with `PoolAlreadyExists` when a pool for the
asset is present, and otherwise creates a pool with zero supplied, zero
borrowed, zero reserves and status Active, touching no other asset. -/
theorem add_pool_spec (aid : Nat) (prms : RateModelParams) (rf : ℚ)
    (st : LedgerState) :
    ((st.pools aid).isSome = true →
      add_pool aid prms rf st = .error .PoolAlreadyExists) ∧
    (st.pools aid = none →
      ∃ st', add_pool aid prms rf st = .ok st' ∧
        st'.pools aid = some (newPool aid prms rf) ∧
        (newPool aid prms rf).total_supplied = 0 ∧
        (newPool aid prms rf).total_borrowed = 0 ∧
        (newPool aid prms rf).reserves = 0 ∧
        (newPool aid prms rf).status = .Active ∧
        ∀ b, b ≠ aid → st'.pools b = st.pools b) := by
  constructor
  · intro h
    unfold add_pool
    rw [if_pos h]
  · intro h
    unfold add_pool
    rw [if_neg (by simp [h])]
    refine ⟨_, rfl, ?_, rfl, rfl, rfl, rfl, ?_⟩
    · simp [setPool]
    · intro b hb
      simp [setPool, hb]

/-- A one-pool ledger used as a concrete witness state. -/
def demoLedger : LedgerState := setPool emptyLedger 1 demoPool

/-- Witness for C4: adding asset 1 to `demoLedger` fails with
`PoolAlreadyExists`; adding asset 1 to the empty ledger creates the zeroed
Active pool. -/
theorem add_pool_spec_witness :
    ((demoLedger.pools 1).isSome = true ∧
      add_pool 1 demoParams 0 demoLedger = .error .PoolAlreadyExists) ∧
    (emptyLedger.pools 1 = none ∧
      ∃ st', add_pool 1 demoParams 0 emptyLedger = .ok st' ∧
        st'.pools 1 = some (newPool 1 demoParams 0) ∧
        (newPool 1 demoParams 0).total_supplied = 0 ∧
        (newPool 1 demoParams 0).total_borrowed = 0 ∧
        (newPool 1 demoParams 0).reserves = 0 ∧
        (newPool 1 demoParams 0).status = .Active ∧
        ∀ b, b ≠ 1 → st'.pools b = emptyLedger.pools b) :=
  ⟨⟨rfl, (add_pool_spec 1 demoParams 0 demoLedger).1 rfl⟩,
    ⟨rfl, (add_pool_spec 1 demoParams 0 emptyLedger).2 rfl⟩⟩

/-- C8: `remove_pool` fails with `PoolDoesNotExist` when no pool exists
for the asset, fails with `PoolNotEmpty` unless both principals are zero;
in particular a pool with nonzero `total_borrowed` cannot be removed. -/
theorem remove_pool_spec (aid : Nat) (st : LedgerState) :
    (st.pools aid = none → remove_pool aid st = .error .PoolDoesNotExist) ∧
    (∀ p, st.pools aid = some p →
      ¬(p.total_supplied = 0 ∧ p.total_borrowed = 0) →
      remove_pool aid st = .error .PoolNotEmpty) ∧
    (∀ p, st.pools aid = some p → p.total_borrowed ≠ 0 →
      remove_pool aid st = .error .PoolNotEmpty) := by
  refine ⟨?_, ?_, ?_⟩
  · intro h
    simp only [remove_pool, h]
  · intro p hp hne
    simp only [remove_pool, hp]
    rw [if_neg hne]
  · intro p hp hb
    simp only [remove_pool, hp]
    rw [if_neg (fun hc => hb hc.2)]

/-- Witness for C8: removal fails with `PoolDoesNotExist` on the empty
ledger and with `PoolNotEmpty` on `demoLedger`, whose pool has 50
borrowed. -/
theorem remove_pool_spec_witness :
    (emptyLedger.pools 1 = none ∧
      remove_pool 1 emptyLedger = .error .PoolDoesNotExist) ∧
    (demoLedger.pools 1 = some demoPool ∧ demoPool.total_borrowed ≠ 0 ∧
      remove_pool 1 demoLedger = .error .PoolNotEmpty) :=
  ⟨⟨rfl, (remove_pool_spec 1 emptyLedger).1 rfl⟩,
    ⟨rfl, by decide,
      (remove_pool_spec 1 demoLedger).2.2 demoPool rfl (by decide)⟩⟩

/-- C3: with the pool settled (zero elapsed periods, so accrual does not
change it), borrowing fails with `InsufficientPoolLiquidity` whenever the
amount exceeds the available (non-reserved, non-borrowed) liquidity; in
particular on a pool with 1000 supplied and 1000 borrowed every positive
borrow fails that way. -/
theorem borrow_insufficient_liquidity (acc aid amount now : Nat)
    (st : LedgerState) (p : Pool)
    (hp : st.pools aid = some p) (hact : p.status = .Active)
    (hnow : now = p.last_accrual_timestamp) :
    (availableLiquidity p < (amount : ℚ) →
      borrowFromPool acc aid amount now st =
        .error .InsufficientPoolLiquidity) ∧
    (p.total_supplied = 1000 → p.total_borrowed = 1000 → 0 ≤ p.reserves →
      0 < amount →
      borrowFromPool acc aid amount now st =
        .error .InsufficientPoolLiquidity) := by
  have hacc : accrue p now = .ok p := by
    rw [hnow]
    exact accrue_noop p
  have main : availableLiquidity p < (amount : ℚ) →
      borrowFromPool acc aid amount now st =
        .error .InsufficientPoolLiquidity := by
    intro hlt
    simp only [borrowFromPool, hp, hact, hacc]
    simp only [ne_eq, not_true_eq_false, if_false, if_pos hlt]
  refine ⟨main, ?_⟩
  intro h1 h2 hr ha
  apply main
  unfold availableLiquidity
  rw [h1, h2]
  have : (1:ℚ) ≤ (amount : ℚ) := by exact_mod_cast ha
  push_cast
  linarith

/-- A fully borrowed pool: 1000 supplied, 1000 borrowed. -/
def fullPool : Pool :=
  { asset_id := 1
    total_supplied := 1000
    total_borrowed := 1000
    reserves := 0
    supply_index := 1
    borrow_index := 1
    last_accrual_timestamp := 0
    rate_model_params := demoParams
    reserve_factor := 1/10
    status := .Active }

/-- A ledger holding only `fullPool` under asset 1. -/
def fullLedger : LedgerState := setPool emptyLedger 1 fullPool

/-- Witness for C3: borrowing 1 unit from the fully borrowed pool fails
with `InsufficientPoolLiquidity`. -/
theorem borrow_insufficient_liquidity_witness :
    fullLedger.pools 1 = some fullPool ∧
    fullPool.status = .Active ∧
    fullPool.total_supplied = 1000 ∧ fullPool.total_borrowed = 1000 ∧
    (0:ℚ) ≤ fullPool.reserves ∧ 0 < 1 ∧
    borrowFromPool 9 1 1 0 fullLedger = .error .InsufficientPoolLiquidity :=
  ⟨rfl, rfl, rfl, rfl, le_refl 0, Nat.one_pos,
    (borrow_insufficient_liquidity 9 1 1 0 fullLedger fullPool rfl rfl
      rfl).2 rfl rfl (le_refl 0) Nat.one_pos⟩

/-- The empty ledger is well formed. -/
lemma emptyLedger_wf : WF emptyLedger := fun _ _ h => nomatch h

/-- Overwriting one pool with a well-formed pool preserves store
well-formedness. -/
lemma wf_setPool (st : LedgerState) (aid : Nat) (q : Pool)
    (hwf : WF st) (hq : PoolWF q) : WF (setPool st aid q) := by
  intro a r hr
  have hr' : (if a = aid then some q else st.pools a) = some r := hr
  by_cases ha : a = aid
  · rw [if_pos ha] at hr'
    injection hr' with hr'
    exact hr' ▸ hq
  · rw [if_neg ha] at hr'
    exact hwf a r hr'

/-- Position updates do not touch the pool store. -/
lemma wf_setPosition (st : LedgerState) (acc aid : Nat) (pos : Position)
    (hwf : WF st) : WF (setPosition st acc aid pos) :=
  fun a r hr => hwf a r hr

/-- Removing a pool preserves store well-formedness. -/
lemma wf_removePool (st : LedgerState) (aid : Nat) (hwf : WF st) :
    WF { st with pools := fun b => if b = aid then none else st.pools b } := by
  intro a r hr
  have hr' : (if a = aid then none else st.pools a) = some r := hr
  by_cases ha : a = aid
  · rw [if_pos ha] at hr'
    exact Option.noConfusion hr'
  · rw [if_neg ha] at hr'
    exact hwf a r hr'

/-- Every successful engine transition preserves well-formedness of the
pool store. -/
lemma applyOp_wf (o : Op) (st st' : LedgerState) (hwf : WF st)
    (h : applyOp o st = .ok st') : WF st' := by
  cases o with
  | addPool aid prms rf =>
    simp only [applyOp, add_lending_pool, add_pool] at h
    by_cases hval : prms.Valid ∧ 0 ≤ rf ∧ rf ≤ 1
    · rw [if_pos hval] at h
      by_cases hex : (st.pools aid).isSome = true
      · rw [if_pos hex] at h
        exact Except.noConfusion h
      · rw [if_neg hex] at h
        injection h with h
        subst h
        exact wf_setPool st aid _ hwf
          ⟨le_refl 0, le_refl 0, hval.1, hval.2.1, hval.2.2, le_refl 1,
            le_refl 1⟩
    · rw [if_neg hval] at h
      exact Except.noConfusion h
  | removePool aid =>
    rcases hsp : st.pools aid with _ | p
    · simp only [applyOp, remove_pool, hsp] at h
      exact Except.noConfusion h
    · simp only [applyOp, remove_pool, hsp] at h
      by_cases hz : p.total_supplied = 0 ∧ p.total_borrowed = 0
      · rw [if_pos hz] at h
        injection h with h
        subst h
        exact wf_removePool st aid hwf
      · rw [if_neg hz] at h
        exact Except.noConfusion h
  | activatePool aid =>
    rcases hsp : st.pools aid with _ | p
    · simp only [applyOp, activate, hsp] at h
      exact Except.noConfusion h
    · simp only [applyOp, activate, hsp] at h
      by_cases hs : p.status = .Active
      · rw [if_pos hs] at h
        exact Except.noConfusion h
      · rw [if_neg hs] at h
        injection h with h
        subst h
        obtain ⟨h1, h2, h3, h4, h5, h6, h7⟩ := hwf aid p hsp
        exact wf_setPool st aid _ hwf ⟨h1, h2, h3, h4, h5, h6, h7⟩
  | deactivatePool aid =>
    rcases hsp : st.pools aid with _ | p
    · simp only [applyOp, deactivate, hsp] at h
      exact Except.noConfusion h
    · simp only [applyOp, deactivate, hsp] at h
      by_cases hs : p.status = .Inactive
      · rw [if_pos hs] at h
        exact Except.noConfusion h
      · rw [if_neg hs] at h
        injection h with h
        subst h
        obtain ⟨h1, h2, h3, h4, h5, h6, h7⟩ := hwf aid p hsp
        exact wf_setPool st aid _ hwf ⟨h1, h2, h3, h4, h5, h6, h7⟩
  | supplyOp acc aid amount now =>
    rcases hsp : st.pools aid with _ | p
    · simp only [applyOp, supplyToPool, hsp] at h
      exact Except.noConfusion h
    · simp only [applyOp, supplyToPool, hsp] at h
      by_cases hs : p.status ≠ .Active
      · rw [if_pos hs] at h
        exact Except.noConfusion h
      · rw [if_neg hs] at h
        rcases hacc : accrue p now with e | p1 <;> simp only [hacc] at h
        · exact Except.noConfusion h
        · injection h with h
          subst h
          obtain ⟨h1, h2, h3, h4, h5, h6, h7⟩ :=
            accrue_wf p p1 now (hwf aid p hsp) hacc
          refine wf_setPosition _ acc aid _ (wf_setPool st aid _ hwf ?_)
          exact ⟨by show p1.total_borrowed ≤ p1.total_supplied + amount; omega,
            h2, h3, h4, h5, h6, h7⟩
  | withdrawOp acc aid amount now =>
    rcases hsp : st.pools aid with _ | p
    · simp only [applyOp, withdrawFromPool, hsp] at h
      exact Except.noConfusion h
    · simp only [applyOp, withdrawFromPool, hsp] at h
      rcases hacc : accrue p now with e | p1 <;> simp only [hacc] at h
      · exact Except.noConfusion h
      · by_cases hbal :
          (amount : ℚ) > (getPosition st acc aid).supply_shares * p1.supply_index
        · rw [if_pos hbal] at h
          exact Except.noConfusion h
        · rw [if_neg hbal] at h
          by_cases hliq : ¬(amount + p1.total_borrowed ≤ p1.total_supplied)
          · rw [if_pos hliq] at h
            exact Except.noConfusion h
          · rw [if_neg hliq] at h
            injection h with h
            subst h
            push_neg at hliq
            obtain ⟨h1, h2, h3, h4, h5, h6, h7⟩ :=
              accrue_wf p p1 now (hwf aid p hsp) hacc
            refine wf_setPosition _ acc aid _ (wf_setPool st aid _ hwf ?_)
            exact ⟨by show p1.total_borrowed ≤ p1.total_supplied - amount; omega,
              h2, h3, h4, h5, h6, h7⟩
  | borrowOp acc aid amount now =>
    rcases hsp : st.pools aid with _ | p
    · simp only [applyOp, borrowFromPool, hsp] at h
      exact Except.noConfusion h
    · simp only [applyOp, borrowFromPool, hsp] at h
      by_cases hs : p.status ≠ .Active
      · rw [if_pos hs] at h
        exact Except.noConfusion h
      · rw [if_neg hs] at h
        rcases hacc : accrue p now with e | p1 <;> simp only [hacc] at h
        · exact Except.noConfusion h
        · by_cases hliq : availableLiquidity p1 < (amount : ℚ)
          · rw [if_pos hliq] at h
            exact Except.noConfusion h
          · rw [if_neg hliq] at h
            injection h with h
            subst h
            push_neg at hliq
            obtain ⟨h1, h2, h3, h4, h5, h6, h7⟩ :=
              accrue_wf p p1 now (hwf aid p hsp) hacc
            refine wf_setPosition _ acc aid _ (wf_setPool st aid _ hwf ?_)
            have hql : (p1.total_borrowed : ℚ) + (amount : ℚ) ≤
                (p1.total_supplied : ℚ) := by
              unfold availableLiquidity at hliq
              linarith
            have hnat : p1.total_borrowed + amount ≤ p1.total_supplied := by
              exact_mod_cast hql
            exact ⟨by show p1.total_borrowed + amount ≤ p1.total_supplied; omega,
              h2, h3, h4, h5, h6, h7⟩
  | repayOp acc aid amount now =>
    rcases hsp : st.pools aid with _ | p
    · simp only [applyOp, repayToPool, hsp] at h
      exact Except.noConfusion h
    · simp only [applyOp, repayToPool, hsp] at h
      rcases hacc : accrue p now with e | p1 <;> simp only [hacc] at h
      · exact Except.noConfusion h
      · injection h with h
        subst h
        obtain ⟨h1, h2, h3, h4, h5, h6, h7⟩ :=
          accrue_wf p p1 now (hwf aid p hsp) hacc
        refine wf_setPosition _ acc aid _ (wf_setPool st aid _ hwf ?_)
        exact ⟨by show p1.total_borrowed - min amount p1.total_borrowed ≤
            p1.total_supplied; omega,
          h2, h3, h4, h5, h6, h7⟩
  | accrueOp aid now =>
    rcases hsp : st.pools aid with _ | p
    · simp only [applyOp, accruePool, hsp] at h
      exact Except.noConfusion h
    · simp only [applyOp, accruePool, hsp] at h
      rcases hacc : accrue p now with e | p1 <;> simp only [hacc] at h
      · exact Except.noConfusion h
      · injection h with h
        subst h
        exact wf_setPool st aid p1 hwf (accrue_wf p p1 now (hwf aid p hsp) hacc)

/-- C1: the solvency invariant `total_supplied ≥ total_borrowed` holds
for every pool after every operation (supply, withdraw, borrow, repay,
accrual, lifecycle) applied to a well-formed state; a rejected operation
(including one rejected by the `ArithmeticOverflow` guard) leaves the
state unchanged, so the invariant is never violated. -/
theorem solvency_invariant (o : Op) (st : LedgerState) (hwf : WF st) :
    ∀ a p, (afterOp o st).pools a = some p →
      p.total_borrowed ≤ p.total_supplied := by
  intro a p hp
  unfold afterOp at hp
  rcases hres : applyOp o st with e | st' <;> rw [hres] at hp
  · exact (hwf a p hp).1
  · exact ((applyOp_wf o st st' hwf hres) a p hp).1

/-- `demoLedger` is well formed. -/
lemma demoLedger_wf : WF demoLedger :=
  wf_setPool emptyLedger 1 demoPool emptyLedger_wf demoPool_wf

/-- The pool of `demoLedger` after supplying 10 units at time 0. -/
def demoPoolSupplied : Pool := { demoPool with total_supplied := 110 }

/-- Supplying 10 units to `demoLedger` at time 0 stores
`demoPoolSupplied` under asset 1. -/
lemma afterOp_supply_demoLedger :
    (afterOp (Op.supplyOp 3 1 10 0) demoLedger).pools 1 =
      some demoPoolSupplied := rfl

/-- Witness for C1: after a concrete supply of 10 units into the
well-formed `demoLedger`, the stored pool still satisfies
`total_borrowed ≤ total_supplied`. -/
theorem solvency_invariant_witness :
    WF demoLedger ∧
    (afterOp (Op.supplyOp 3 1 10 0) demoLedger).pools 1 =
      some demoPoolSupplied ∧
    demoPoolSupplied.total_borrowed ≤ demoPoolSupplied.total_supplied :=
  ⟨demoLedger_wf, afterOp_supply_demoLedger,
    solvency_invariant (Op.supplyOp 3 1 10 0) demoLedger demoLedger_wf 1
      demoPoolSupplied afterOp_supply_demoLedger⟩

/-- C5: supplying an amount and immediately withdrawing the same amount,
with no intervening accrual (same timestamp, so zero elapsed periods),
succeeds and restores both the pool record and the account's position
exactly.  Arithmetic is exact rational arithmetic, so the returned amount
equals the supplied amount with rounding error 0 (within the claimed
1-unit bound). -/
theorem supply_withdraw_roundtrip (acc aid amount : Nat) (st : LedgerState)
    (p : Pool)
    (hp : st.pools aid = some p) (hact : p.status = .Active)
    (hidx : 0 < p.supply_index) (hbs : p.total_borrowed ≤ p.total_supplied)
    (hamt : 0 < amount)
    (hpos : ∀ q, st.positions acc aid = some q →
      0 ≤ q.supply_shares ∧
      ¬(q.supply_shares = 0 ∧ q.borrow_principal = 0)) :
    ∃ st1 st2,
      supplyToPool acc aid amount p.last_accrual_timestamp st = .ok st1 ∧
      withdrawFromPool acc aid amount p.last_accrual_timestamp st1 = .ok st2 ∧
      st2.pools aid = st.pools aid ∧
      st2.positions acc aid = st.positions acc aid := by
  have hidx0 : p.supply_index ≠ 0 := ne_of_gt hidx
  have hacc : accrue p p.last_accrual_timestamp = .ok p := accrue_noop p
  have hs0 : 0 ≤ (getPosition st acc aid).supply_shares := by
    rcases hq : st.positions acc aid with _ | q
    · simp [getPosition, hq]
    · simpa [getPosition, hq] using (hpos q hq).1
  have h1 : supplyToPool acc aid amount p.last_accrual_timestamp st =
      .ok (setPosition
        (setPool st aid { p with total_supplied := p.total_supplied + amount })
        acc aid
        { getPosition st acc aid with
            supply_shares := (getPosition st acc aid).supply_shares +
              (amount : ℚ) / p.supply_index }) := by
    simp only [supplyToPool, hp, hacc]
    rw [if_neg (show ¬ p.status ≠ PoolStatus.Active from by simp [hact])]
  have hsh : 0 < (getPosition st acc aid).supply_shares +
      (amount : ℚ) / p.supply_index := by
    have hma : 0 < (amount : ℚ) := by exact_mod_cast hamt
    have hdiv : 0 < (amount : ℚ) / p.supply_index := div_pos hma hidx
    linarith
  have hp1 : (setPosition
      (setPool st aid { p with total_supplied := p.total_supplied + amount })
      acc aid
      { getPosition st acc aid with
          supply_shares := (getPosition st acc aid).supply_shares +
            (amount : ℚ) / p.supply_index }).pools aid =
      some { p with total_supplied := p.total_supplied + amount } := by
    simp [setPosition, setPool]
  have hacc1 : accrue { p with total_supplied := p.total_supplied + amount }
      p.last_accrual_timestamp =
      .ok { p with total_supplied := p.total_supplied + amount } :=
    accrue_noop _
  have hq1 : getPosition (setPosition
      (setPool st aid { p with total_supplied := p.total_supplied + amount })
      acc aid
      { getPosition st acc aid with
          supply_shares := (getPosition st acc aid).supply_shares +
            (amount : ℚ) / p.supply_index }) acc aid =
      { getPosition st acc aid with
          supply_shares := (getPosition st acc aid).supply_shares +
            (amount : ℚ) / p.supply_index } := by
    simp only [getPosition, setPosition]
    rw [if_pos (by simp), if_neg (fun hc => hsh.ne' hc.1)]
    rfl
  have hbal : (amount : ℚ) ≤ ((getPosition st acc aid).supply_shares +
      (amount : ℚ) / p.supply_index) * p.supply_index := by
    have hexp : ((getPosition st acc aid).supply_shares +
        (amount : ℚ) / p.supply_index) * p.supply_index =
        (getPosition st acc aid).supply_shares * p.supply_index + amount := by
      field_simp
    rw [hexp]
    nlinarith [mul_nonneg hs0 (le_of_lt hidx)]
  have h2 : withdrawFromPool acc aid amount p.last_accrual_timestamp
      (setPosition
        (setPool st aid { p with total_supplied := p.total_supplied + amount })
        acc aid
        { getPosition st acc aid with
            supply_shares := (getPosition st acc aid).supply_shares +
              (amount : ℚ) / p.supply_index }) =
      .ok (setPosition
        (setPool (setPosition
          (setPool st aid
            { p with total_supplied := p.total_supplied + amount })
          acc aid
          { getPosition st acc aid with
              supply_shares := (getPosition st acc aid).supply_shares +
                (amount : ℚ) / p.supply_index })
          aid { p with total_supplied := p.total_supplied + amount - amount })
        acc aid
        { getPosition st acc aid with
            supply_shares := (getPosition st acc aid).supply_shares +
              (amount : ℚ) / p.supply_index -
              (amount : ℚ) / p.supply_index }) := by
    simp only [withdrawFromPool, hp1, hacc1, hq1]
    rw [if_neg (not_lt.mpr hbal)]
    rw [if_neg (not_not_intro (show
      amount + ({ p with total_supplied := p.total_supplied + amount } :
        Pool).total_borrowed ≤
      ({ p with total_supplied := p.total_supplied + amount } :
        Pool).total_supplied from by
      show amount + p.total_borrowed ≤ p.total_supplied + amount
      omega))]
  refine ⟨_, _, h1, h2, ?_, ?_⟩
  · have hts : p.total_supplied + amount - amount = p.total_supplied := by
      omega
    simp [setPosition, setPool, hts, hp]
  · rcases hq : st.positions acc aid with _ | q
    · simp [setPosition, getPosition, hq]
    · have hqz := (hpos q hq).2
      simp [setPosition, getPosition, hq, hqz]

/-- Witness for C5: supplying 10 units to `demoLedger` at the pool's own
timestamp and withdrawing them immediately succeeds and restores the pool
and the (empty) position of account 3. -/
theorem supply_withdraw_roundtrip_witness :
    demoLedger.pools 1 = some demoPool ∧
    demoPool.status = .Active ∧
    (0 : ℚ) < demoPool.supply_index ∧
    demoPool.total_borrowed ≤ demoPool.total_supplied ∧
    0 < 10 ∧
    (∃ st1 st2,
      supplyToPool 3 1 10 demoPool.last_accrual_timestamp demoLedger =
        .ok st1 ∧
      withdrawFromPool 3 1 10 demoPool.last_accrual_timestamp st1 =
        .ok st2 ∧
      st2.pools 1 = demoLedger.pools 1 ∧
      st2.positions 3 1 = demoLedger.positions 3 1) :=
  ⟨rfl, rfl, by norm_num [demoPool], by decide, by decide,
    supply_withdraw_roundtrip 3 1 10 demoLedger demoPool rfl rfl
      (by norm_num [demoPool]) (by decide) (by decide)
      (fun q hq => nomatch hq)⟩

end KylixLending
